import Mathlib

/-!
# Verification of the Zest OpenAI Tool Server gateway

A shallow embedding of `openai-tool-server/main.py`: a FastAPI gateway that
validates inbound JSON requests, optionally checks a static bearer token,
and forwards calls to a local "agent proxy" backend over HTTP.

Modelling conventions:
* JSON values are the inductive type `Json`; Python dicts are association
  lists in declaration order (pydantic `.dict()` preserves field order).
* The backend (and the startup port probe) is a function from an outbound
  request to a `BackendOutcome`: either a response carrying a status code,
  the JSON-parse result of its body, and the text that
  `str(httpx.HTTPStatusError)` would produce, or a raised transport
  exception carrying its message.
* `raise HTTPException(...)` becomes `Except.error` of an `HTTPExc`;
  FastAPI turning an uncaught `HTTPException` into an error response
  becomes `Outcome.err`.
* Each handler also returns the list of outbound requests it issued, so
  that "forwarded to the backend" is observable.
* Pydantic's lenient value coercions (e.g. `int` to `str`) are not
  modelled: a field validates only when it already carries the declared
  JSON type.  The concrete text of validation error messages is modelled,
  not copied from pydantic.
* The `http_client` global is assumed initialised (the `lifespan` context
  sets it before any request is served), and the static `/openapi.json`
  schema route (no authentication, no forwarding, pure app metadata) is
  outside the embedding.
-/

/-- JSON values as received and produced by the gateway. -/
inductive Json where
  | null
  | bool (b : Bool)
  | num (n : Int)
  | str (s : String)
  | arr (xs : List Json)
  | obj (fields : List (String × Json))

/-- Field lookup in a JSON object, mimicking Python `dict.get`:
`none` on a non-object or a missing key. -/
def Json.lookup : Json → String → Option Json
  | .obj fields, key => lookupField fields key
  | _, _ => none
where lookupField : List (String × Json) → String → Option Json
  | [], _ => none
  | (k, v) :: rest, key => if k = key then some v else lookupField rest key

/-- Whether a JSON value is an object (a Python dict). -/
def Json.isObj : Json → Bool
  | .obj _ => true
  | _ => false

/-- `Optional[int]` serialised by `.dict()`: `None` becomes JSON null. -/
def jsonOfOptInt : Option Int → Json
  | none => .null
  | some n => .num n

/-- `Optional[str]` serialised by `.dict()`: `None` becomes JSON null. -/
def jsonOfOptStr : Option String → Json
  | none => .null
  | some s => .str s

/-- `Optional[Dict[str, Any]]` serialised by `.dict()`. -/
def jsonOfOptObj : Option (List (String × Json)) → Json
  | none => .null
  | some fields => .obj fields

/-- A raised `fastapi.HTTPException`: status code and detail message. -/
structure HTTPExc where
  status : Nat
  detail : String
deriving DecidableEq, Repr

/-- An outbound HTTP request issued by the gateway through `http_client`. -/
structure OutboundRequest where
  endpoint : String
  method : String
  body : Option Json

/-- A backend HTTP response: its status code, the result of
`response.json()` (`Except.error` models the decode raising, carrying the
exception message), and the text `str(e)` of the `httpx.HTTPStatusError`
that `raise_for_status()` would raise for a non-2xx status. -/
structure BackendResponse where
  status : Nat
  body : Except String Json
  statusText : String

/-- Outcome of one outbound call: a response, or a raised transport
exception with message `msg` (connect error, timeout, ...). -/
inductive BackendOutcome where
  | response (r : BackendResponse)
  | raiseExc (msg : String)

/-- `httpx.Response.is_success`: the 2xx range accepted by
`raise_for_status()`. -/
def is2xx (status : Nat) : Bool := 200 ≤ status && status < 300

/-- `proxy_request` from `main.py`: issue the call, `raise_for_status()`,
decode JSON; translate an `httpx.HTTPStatusError` into an `HTTPException`
with the backend status and `str(e)`, and any other exception into a 500
`"Proxy request failed: ..."`.  Also returns the outbound requests issued
(empty when the unsupported-method `ValueError` fires before any call). -/
def proxy_request (backend : OutboundRequest → BackendOutcome)
    (endpoint : String) (method : String) (json_data : Option Json) :
    Except HTTPExc Json × List OutboundRequest :=
  if method = "GET" ∨ method = "POST" then
    let req : OutboundRequest :=
      ⟨endpoint, method, if method = "POST" then json_data else none⟩
    match backend req with
    | .raiseExc msg => (.error ⟨500, "Proxy request failed: " ++ msg⟩, [req])
    | .response r =>
        if is2xx r.status then
          match r.body with
          | .ok j => (.ok j, [req])
          | .error msg =>
              (.error ⟨500, "Proxy request failed: " ++ msg⟩, [req])
        else
          (.error ⟨r.status, r.statusText⟩, [req])
  else
    (.error ⟨500, "Proxy request failed: Unsupported method: " ++ method⟩, [])

/-- `str.partition(" ")` on the character list: the text before the
first space, and everything after it (empty when there is no space). -/
def partitionCharsSpace : List Char → List Char × List Char
  | [] => ([], [])
  | c :: rest =>
      if c = ' ' then ([], rest)
      else
        let p := partitionCharsSpace rest
        (c :: p.1, p.2)

/-- `get_authorization_scheme_param`: split the header value on the first
space into scheme and parameter (`str.partition(" ")`). -/
def partitionSpace (s : String) : String × String :=
  let p := partitionCharsSpace s.data
  (⟨p.1⟩, ⟨p.2⟩)

/-- ASCII lowercasing of one character (`str.lower()` on scheme names). -/
def asciiLowerChar (c : Char) : Char :=
  if 'A' ≤ c ∧ c ≤ 'Z' then Char.ofNat (c.toNat + 32) else c

/-- ASCII lowercasing of a string (`scheme.lower()`). -/
def asciiLower (s : String) : String := ⟨s.data.map asciiLowerChar⟩

/-- `fastapi.security.HTTPBearer` with its default `auto_error=True`:
403 when the Authorization header is absent or not of the form
`<scheme> <credentials>`, 403 when the scheme is not `bearer`
(case-insensitively), otherwise the extracted credentials. -/
def httpBearer (authHeader : Option String) : Except HTTPExc String :=
  match authHeader with
  | none => .error ⟨403, "Not authenticated"⟩
  | some authorization =>
      let sp := partitionSpace authorization
      if authorization = "" ∨ sp.1 = "" ∨ sp.2 = "" then
        .error ⟨403, "Not authenticated"⟩
      else if asciiLower sp.1 ≠ "bearer" then
        .error ⟨403, "Invalid authentication credentials"⟩
      else
        .ok sp.2

/-- `verify_api_key` from `main.py`: run the `HTTPBearer` scheme, then
reject with 401 when a key is configured and the credentials differ. -/
def verify_api_key (apiKey : String) (authHeader : Option String) :
    Except HTTPExc String :=
  match httpBearer authHeader with
  | .error e => .error e
  | .ok cred =>
      if apiKey ≠ "" ∧ cred ≠ apiKey then .error ⟨401, "Invalid API key"⟩
      else .ok cred

/-! ## Request and response models (pydantic `BaseModel`s) -/

/-- Required `str` field: present with a string value, else a validation
error (`field required` / wrong type). -/
def reqStrField (b : Json) (key : String) : Except String String :=
  match b.lookup key with
  | some (.str s) => .ok s
  | some _ => .error (key ++ ": str type expected")
  | none => .error (key ++ ": field required")

/-- Required `bool` field. -/
def reqBoolField (b : Json) (key : String) : Except String Bool :=
  match b.lookup key with
  | some (.bool x) => .ok x
  | some _ => .error (key ++ ": value could not be parsed to a boolean")
  | none => .error (key ++ ": field required")

/-- Required `Dict[str, Any]` field. -/
def reqObjField (b : Json) (key : String) :
    Except String (List (String × Json)) :=
  match b.lookup key with
  | some (.obj fields) => .ok fields
  | some _ => .error (key ++ ": value is not a valid dict")
  | none => .error (key ++ ": field required")

/-- Non-optional `bool` field with a default: absent gives the default,
null or a non-boolean is a validation error. -/
def boolFieldD (b : Json) (key : String) (dflt : Bool) : Except String Bool :=
  match b.lookup key with
  | none => .ok dflt
  | some (.bool x) => .ok x
  | some _ => .error (key ++ ": value could not be parsed to a boolean")

/-- `Optional[int]` field with default `dflt`: absent gives the default,
null gives `None`, an integer gives itself. -/
def optIntFieldD (b : Json) (key : String) (dflt : Option Int) :
    Except String (Option Int) :=
  match b.lookup key with
  | none => .ok dflt
  | some .null => .ok none
  | some (.num n) => .ok (some n)
  | some _ => .error (key ++ ": value is not a valid integer")

/-- `Optional[str]` field with default `dflt`. -/
def optStrFieldD (b : Json) (key : String) (dflt : Option String) :
    Except String (Option String) :=
  match b.lookup key with
  | none => .ok dflt
  | some .null => .ok none
  | some (.str s) => .ok (some s)
  | some _ => .error (key ++ ": str type expected")

/-- `Optional[bool]` field defaulting to `None`. -/
def optBoolField (b : Json) (key : String) : Except String (Option Bool) :=
  match b.lookup key with
  | none => .ok none
  | some .null => .ok none
  | some (.bool x) => .ok (some x)
  | some _ => .error (key ++ ": value could not be parsed to a boolean")

/-- `Optional[Dict[str, Any]]` field defaulting to `None`. -/
def optObjField (b : Json) (key : String) :
    Except String (Option (List (String × Json))) :=
  match b.lookup key with
  | none => .ok none
  | some .null => .ok none
  | some (.obj fields) => .ok (some fields)
  | some _ => .error (key ++ ": value is not a valid dict")

/-- `ExploreCodeRequest`: `query: str`, `generate_report: bool = False`,
`config: Optional[Dict[str, Any]] = None`. -/
structure ExploreCodeRequest where
  query : String
  generate_report : Bool
  config : Option (List (String × Json))

/-- Validate a JSON body as an `ExploreCodeRequest`. -/
def parseExploreCodeRequest (b : Json) : Except String ExploreCodeRequest :=
  if b.isObj then do
    let query ← reqStrField b "query"
    let generate_report ← boolFieldD b "generate_report" false
    let config ← optObjField b "config"
    .ok ⟨query, generate_report, config⟩
  else .error "value is not a valid dict"

/-- `ExploreCodeRequest.dict()` in declaration order. -/
def ExploreCodeRequest.dict (r : ExploreCodeRequest) : Json :=
  .obj [("query", .str r.query), ("generate_report", .bool r.generate_report),
        ("config", jsonOfOptObj r.config)]

/-- `ExecuteToolRequest`: `tool: str`, `parameters: Dict[str, Any]`. -/
structure ExecuteToolRequest where
  tool : String
  parameters : List (String × Json)

/-- Validate a JSON body as an `ExecuteToolRequest`. -/
def parseExecuteToolRequest (b : Json) : Except String ExecuteToolRequest :=
  if b.isObj then do
    let tool ← reqStrField b "tool"
    let parameters ← reqObjField b "parameters"
    .ok ⟨tool, parameters⟩
  else .error "value is not a valid dict"

/-- `ExecuteToolRequest.dict()`. -/
def ExecuteToolRequest.dict (r : ExecuteToolRequest) : Json :=
  .obj [("tool", .str r.tool), ("parameters", .obj r.parameters)]

/-- `ExploreCodeResponse`: `success: bool`, `summary: str`,
`report: Optional[Dict] = None`, `error: Optional[str] = None`. -/
structure ExploreCodeResponse where
  success : Bool
  summary : String
  report : Option (List (String × Json))
  error : Option String

/-- `ExploreCodeResponse(**result)`: validate the backend payload against
the response model. -/
def parseExploreCodeResponse (j : Json) : Except String ExploreCodeResponse :=
  if j.isObj then do
    let success ← reqBoolField j "success"
    let summary ← reqStrField j "summary"
    let report ← optObjField j "report"
    let error ← optStrFieldD j "error" none
    .ok ⟨success, summary, report, error⟩
  else .error "argument is not a mapping"

/-- FastAPI serialisation of an `ExploreCodeResponse` (all fields,
`None` as null). -/
def ExploreCodeResponse.toJson (r : ExploreCodeResponse) : Json :=
  .obj [("success", .bool r.success), ("summary", .str r.summary),
        ("report", jsonOfOptObj r.report), ("error", jsonOfOptStr r.error)]

/-- `ExecuteToolResponse`: `success: bool`, `content: str`,
`error: Optional[str] = None`. -/
structure ExecuteToolResponse where
  success : Bool
  content : String
  error : Option String

/-- `ExecuteToolResponse(**result)`: validate the backend payload against
the response model. -/
def parseExecuteToolResponse (j : Json) : Except String ExecuteToolResponse :=
  if j.isObj then do
    let success ← reqBoolField j "success"
    let content ← reqStrField j "content"
    let error ← optStrFieldD j "error" none
    .ok ⟨success, content, error⟩
  else .error "argument is not a mapping"

/-- FastAPI serialisation of an `ExecuteToolResponse`. -/
def ExecuteToolResponse.toJson (r : ExecuteToolResponse) : Json :=
  .obj [("success", .bool r.success), ("content", .str r.content),
        ("error", jsonOfOptStr r.error)]

/-- `SearchCodeRequest`: `query: str`, `max_results: Optional[int] = 10`. -/
structure SearchCodeRequest where
  query : String
  max_results : Option Int

/-- Validate a JSON body as a `SearchCodeRequest` (absent `max_results`
takes the declared default 10). -/
def parseSearchCodeRequest (b : Json) : Except String SearchCodeRequest :=
  if b.isObj then do
    let query ← reqStrField b "query"
    let max_results ← optIntFieldD b "max_results" (some 10)
    .ok ⟨query, max_results⟩
  else .error "value is not a valid dict"

/-- `SearchCodeRequest.dict()` as an association list. -/
def SearchCodeRequest.dictFields (r : SearchCodeRequest) :
    List (String × Json) :=
  [("query", .str r.query), ("max_results", jsonOfOptInt r.max_results)]

/-- `FindByNameRequest`: `name: str`, `type: Optional[str] = "any"`. -/
structure FindByNameRequest where
  name : String
  type : Option String

/-- Validate a JSON body as a `FindByNameRequest` (absent `type` takes the
declared default `"any"`). -/
def parseFindByNameRequest (b : Json) : Except String FindByNameRequest :=
  if b.isObj then do
    let name ← reqStrField b "name"
    let ty ← optStrFieldD b "type" (some "any")
    .ok ⟨name, ty⟩
  else .error "value is not a valid dict"

/-- `FindByNameRequest.dict()` as an association list. -/
def FindByNameRequest.dictFields (r : FindByNameRequest) :
    List (String × Json) :=
  [("name", .str r.name), ("type", jsonOfOptStr r.type)]

/-- `ReadFileRequest`: `file_path: str`. -/
structure ReadFileRequest where
  file_path : String

/-- Validate a JSON body as a `ReadFileRequest`. -/
def parseReadFileRequest (b : Json) : Except String ReadFileRequest :=
  if b.isObj then do
    let file_path ← reqStrField b "file_path"
    .ok ⟨file_path⟩
  else .error "value is not a valid dict"

/-- `ReadFileRequest.dict()` as an association list. -/
def ReadFileRequest.dictFields (r : ReadFileRequest) :
    List (String × Json) :=
  [("file_path", .str r.file_path)]

/-- `FindRelationshipsRequest`: `element_id: str`,
`relation_type: Optional[str] = None`. -/
structure FindRelationshipsRequest where
  element_id : String
  relation_type : Option String

/-- Validate a JSON body as a `FindRelationshipsRequest`. -/
def parseFindRelationshipsRequest (b : Json) :
    Except String FindRelationshipsRequest :=
  if b.isObj then do
    let element_id ← reqStrField b "element_id"
    let relation_type ← optStrFieldD b "relation_type" none
    .ok ⟨element_id, relation_type⟩
  else .error "value is not a valid dict"

/-- `FindRelationshipsRequest.dict()` as an association list. -/
def FindRelationshipsRequest.dictFields (r : FindRelationshipsRequest) :
    List (String × Json) :=
  [("element_id", .str r.element_id),
   ("relation_type", jsonOfOptStr r.relation_type)]

/-- `FindUsagesRequest`: `element_id: str`. -/
structure FindUsagesRequest where
  element_id : String

/-- Validate a JSON body as a `FindUsagesRequest`. -/
def parseFindUsagesRequest (b : Json) : Except String FindUsagesRequest :=
  if b.isObj then do
    let element_id ← reqStrField b "element_id"
    .ok ⟨element_id⟩
  else .error "value is not a valid dict"

/-- `FindUsagesRequest.dict()` as an association list. -/
def FindUsagesRequest.dictFields (r : FindUsagesRequest) :
    List (String × Json) :=
  [("element_id", .str r.element_id)]

/-- `GetClassInfoRequest`: `class_name: str`. -/
structure GetClassInfoRequest where
  class_name : String

/-- Validate a JSON body as a `GetClassInfoRequest`. -/
def parseGetClassInfoRequest (b : Json) : Except String GetClassInfoRequest :=
  if b.isObj then do
    let class_name ← reqStrField b "class_name"
    .ok ⟨class_name⟩
  else .error "value is not a valid dict"

/-- `GetClassInfoRequest.dict()` as an association list. -/
def GetClassInfoRequest.dictFields (r : GetClassInfoRequest) :
    List (String × Json) :=
  [("class_name", .str r.class_name)]

/-- `AugmentQueryRequest`: `query: str`. -/
structure AugmentQueryRequest where
  query : String

/-- Validate a JSON body as an `AugmentQueryRequest`. -/
def parseAugmentQueryRequest (b : Json) : Except String AugmentQueryRequest :=
  if b.isObj then do
    let query ← reqStrField b "query"
    .ok ⟨query⟩
  else .error "value is not a valid dict"

/-- `AugmentQueryRequest.dict()`. -/
def AugmentQueryRequest.dict (r : AugmentQueryRequest) : Json :=
  .obj [("query", .str r.query)]

/-- `ConfigUpdateRequest`: five `Optional` fields, all defaulting to
`None`. -/
structure ConfigUpdateRequest where
  max_tool_calls : Option Int
  max_rounds : Option Int
  include_tests : Option Bool
  deep_exploration : Option Bool
  timeout_seconds : Option Int

/-- Validate a JSON body as a `ConfigUpdateRequest`. -/
def parseConfigUpdateRequest (b : Json) : Except String ConfigUpdateRequest :=
  if b.isObj then do
    let max_tool_calls ← optIntFieldD b "max_tool_calls" none
    let max_rounds ← optIntFieldD b "max_rounds" none
    let include_tests ← optBoolField b "include_tests"
    let deep_exploration ← optBoolField b "deep_exploration"
    let timeout_seconds ← optIntFieldD b "timeout_seconds" none
    .ok ⟨max_tool_calls, max_rounds, include_tests, deep_exploration,
         timeout_seconds⟩
  else .error "value is not a valid dict"

/-- `ConfigUpdateRequest.dict(exclude_none=True)`: only the fields that
are set appear, in declaration order. -/
def ConfigUpdateRequest.dictExcludeNone (r : ConfigUpdateRequest) :
    List (String × Json) :=
  (match r.max_tool_calls with
   | some n => [("max_tool_calls", Json.num n)] | none => []) ++
  (match r.max_rounds with
   | some n => [("max_rounds", Json.num n)] | none => []) ++
  (match r.include_tests with
   | some x => [("include_tests", Json.bool x)] | none => []) ++
  (match r.deep_exploration with
   | some x => [("deep_exploration", Json.bool x)] | none => []) ++
  (match r.timeout_seconds with
   | some n => [("timeout_seconds", Json.num n)] | none => [])

/-! ## Route handlers -/

/-- `execute_tool` from `main.py`: forward to `POST /execute-tool`,
re-raise any `HTTPException` from `proxy_request`, and turn any other
exception (here: response-model validation failure) into a
`success=False` payload with empty content and the exception message. -/
def execute_tool (backend : OutboundRequest → BackendOutcome)
    (request : ExecuteToolRequest) :
    Except HTTPExc ExecuteToolResponse × List OutboundRequest :=
  match proxy_request backend "/execute-tool" "POST" (some request.dict) with
  | (.error e, tr) => (.error e, tr)
  | (.ok result, tr) =>
      match parseExecuteToolResponse result with
      | .ok resp => (.ok resp, tr)
      | .error msg => (.ok ⟨false, "", some msg⟩, tr)

/-- `explore_code` from `main.py`: forward to `POST /explore`, re-raise
any `HTTPException`, and turn any other exception into a `success=False`
payload with empty summary and the exception message. -/
def explore_code (backend : OutboundRequest → BackendOutcome)
    (request : ExploreCodeRequest) :
    Except HTTPExc ExploreCodeResponse × List OutboundRequest :=
  match proxy_request backend "/explore" "POST" (some request.dict) with
  | (.error e, tr) => (.error e, tr)
  | (.ok result, tr) =>
      match parseExploreCodeResponse result with
      | .ok resp => (.ok resp, tr)
      | .error msg => (.ok ⟨false, "", none, some msg⟩, tr)

/-- `health_check` from `main.py`: probe the backend `/health`; any
exception at all (including a re-raised `HTTPException`) yields the
degraded-but-healthy payload. -/
def health_check (backend : OutboundRequest → BackendOutcome) :
    Json × List OutboundRequest :=
  match proxy_request backend "/health" "GET" none with
  | (.ok proxyHealth, tr) =>
      (.obj [("status", .str "healthy"), ("proxy_connected", .bool true),
             ("proxy_info", proxyHealth)], tr)
  | (.error _, tr) =>
      (.obj [("status", .str "healthy"), ("proxy_connected", .bool false),
             ("proxy_info", .null)], tr)

/-- `search_code` from `main.py`: delegate to `execute_tool` with tool
`search_code` and `request.dict()` as the parameter map. -/
def search_code (backend : OutboundRequest → BackendOutcome)
    (request : SearchCodeRequest) :
    Except HTTPExc ExecuteToolResponse × List OutboundRequest :=
  execute_tool backend ⟨"search_code", request.dictFields⟩

/-- `find_by_name` from `main.py`. -/
def find_by_name (backend : OutboundRequest → BackendOutcome)
    (request : FindByNameRequest) :
    Except HTTPExc ExecuteToolResponse × List OutboundRequest :=
  execute_tool backend ⟨"find_by_name", request.dictFields⟩

/-- `read_file` from `main.py`. -/
def read_file (backend : OutboundRequest → BackendOutcome)
    (request : ReadFileRequest) :
    Except HTTPExc ExecuteToolResponse × List OutboundRequest :=
  execute_tool backend ⟨"read_file", request.dictFields⟩

/-- `find_relationships` from `main.py`. -/
def find_relationships (backend : OutboundRequest → BackendOutcome)
    (request : FindRelationshipsRequest) :
    Except HTTPExc ExecuteToolResponse × List OutboundRequest :=
  execute_tool backend ⟨"find_relationships", request.dictFields⟩

/-- `find_usages` from `main.py`. -/
def find_usages (backend : OutboundRequest → BackendOutcome)
    (request : FindUsagesRequest) :
    Except HTTPExc ExecuteToolResponse × List OutboundRequest :=
  execute_tool backend ⟨"find_usages", request.dictFields⟩

/-- `get_class_info` from `main.py`. -/
def get_class_info (backend : OutboundRequest → BackendOutcome)
    (request : GetClassInfoRequest) :
    Except HTTPExc ExecuteToolResponse × List OutboundRequest :=
  execute_tool backend ⟨"get_class_info", request.dictFields⟩

/-- `update_config` from `main.py`: forward
`request.dict(exclude_none=True)` to `POST /config`. -/
def update_config (backend : OutboundRequest → BackendOutcome)
    (request : ConfigUpdateRequest) :
    Except HTTPExc Json × List OutboundRequest :=
  proxy_request backend "/config" "POST" (some (.obj request.dictExcludeNone))

/-! ## The router -/

/-- An inbound HTTP request to the gateway. -/
structure InboundRequest where
  path : String
  method : String
  authHeader : Option String
  body : Option Json

/-- The gateway's reply: a 200 JSON body, or an error response with a
status and detail (from an `HTTPException` or request validation). -/
inductive Outcome where
  | ok (j : Json)
  | err (status : Nat) (detail : String)

/-- Run the `verify_api_key` dependency before the handler; a raised
`HTTPException` becomes the response and nothing is forwarded. -/
def withAuth (apiKey : String) (authHeader : Option String)
    (k : String → Outcome × List OutboundRequest) :
    Outcome × List OutboundRequest :=
  match verify_api_key apiKey authHeader with
  | .error e => (.err e.status e.detail, [])
  | .ok cred => k cred

/-- FastAPI request-body validation: a missing body or a validation
failure yields a 422 and the handler never runs. -/
def withParsed {α : Type} (body : Option Json)
    (parse : Json → Except String α)
    (k : α → Outcome × List OutboundRequest) :
    Outcome × List OutboundRequest :=
  match body with
  | none => (.err 422 "field required", [])
  | some b =>
      match parse b with
      | .error msg => (.err 422 msg, [])
      | .ok a => k a

/-- Collapse a handler result: an uncaught `HTTPException` becomes an
error response. -/
def toOutcome (p : Except HTTPExc Json × List OutboundRequest) :
    Outcome × List OutboundRequest :=
  match p with
  | (.ok j, tr) => (.ok j, tr)
  | (.error e, tr) => (.err e.status e.detail, tr)

/-- Serialise a handler's model result, turning an uncaught
`HTTPException` into an error response. -/
def respondModel {α : Type} (ser : α → Json)
    (p : Except HTTPExc α × List OutboundRequest) :
    Outcome × List OutboundRequest :=
  match p with
  | (.ok resp, tr) => (.ok (ser resp), tr)
  | (.error e, tr) => (.err e.status e.detail, tr)

/-- The gateway's route table, dispatching exactly as the decorators in
`main.py` do.  `/health` has no authentication dependency; every other
modelled route runs `verify_api_key` first. -/
def handleRequest (apiKey : String)
    (backend : OutboundRequest → BackendOutcome) (req : InboundRequest) :
    Outcome × List OutboundRequest :=
  if req.method = "GET" ∧ req.path = "/health" then
    let p := health_check backend
    (.ok p.1, p.2)
  else if req.method = "POST" ∧ req.path = "/explore" then
    withAuth apiKey req.authHeader fun _ =>
      withParsed req.body parseExploreCodeRequest fun r =>
        respondModel ExploreCodeResponse.toJson (explore_code backend r)
  else if req.method = "POST" ∧ req.path = "/execute-tool" then
    withAuth apiKey req.authHeader fun _ =>
      withParsed req.body parseExecuteToolRequest fun r =>
        respondModel ExecuteToolResponse.toJson (execute_tool backend r)
  else if req.method = "GET" ∧ req.path = "/tools" then
    withAuth apiKey req.authHeader fun _ =>
      toOutcome (proxy_request backend "/tools" "GET" none)
  else if req.method = "POST" ∧ req.path = "/search" then
    withAuth apiKey req.authHeader fun _ =>
      withParsed req.body parseSearchCodeRequest fun r =>
        respondModel ExecuteToolResponse.toJson (search_code backend r)
  else if req.method = "POST" ∧ req.path = "/find-by-name" then
    withAuth apiKey req.authHeader fun _ =>
      withParsed req.body parseFindByNameRequest fun r =>
        respondModel ExecuteToolResponse.toJson (find_by_name backend r)
  else if req.method = "POST" ∧ req.path = "/read-file" then
    withAuth apiKey req.authHeader fun _ =>
      withParsed req.body parseReadFileRequest fun r =>
        respondModel ExecuteToolResponse.toJson (read_file backend r)
  else if req.method = "POST" ∧ req.path = "/find-relationships" then
    withAuth apiKey req.authHeader fun _ =>
      withParsed req.body parseFindRelationshipsRequest fun r =>
        respondModel ExecuteToolResponse.toJson (find_relationships backend r)
  else if req.method = "POST" ∧ req.path = "/find-usages" then
    withAuth apiKey req.authHeader fun _ =>
      withParsed req.body parseFindUsagesRequest fun r =>
        respondModel ExecuteToolResponse.toJson (find_usages backend r)
  else if req.method = "POST" ∧ req.path = "/class-info" then
    withAuth apiKey req.authHeader fun _ =>
      withParsed req.body parseGetClassInfoRequest fun r =>
        respondModel ExecuteToolResponse.toJson (get_class_info backend r)
  else if req.method = "POST" ∧ req.path = "/augment" then
    withAuth apiKey req.authHeader fun _ =>
      withParsed req.body parseAugmentQueryRequest fun r =>
        toOutcome (proxy_request backend "/augment" "POST" (some r.dict))
  else if req.method = "GET" ∧ req.path = "/status" then
    withAuth apiKey req.authHeader fun _ =>
      toOutcome (proxy_request backend "/status" "GET" none)
  else if req.method = "GET" ∧ req.path = "/config" then
    withAuth apiKey req.authHeader fun _ =>
      toOutcome (proxy_request backend "/config" "GET" none)
  else if req.method = "POST" ∧ req.path = "/config" then
    withAuth apiKey req.authHeader fun _ =>
      withParsed req.body parseConfigUpdateRequest fun r =>
        toOutcome (update_config backend r)
  else
    (.err 404 "Not Found", [])

/-- The modelled routes guarded by the `verify_api_key` dependency:
every route of `main.py` except `GET /health` (and the static
`/openapi.json` schema route, which is outside the embedding). -/
def protectedRoute (method path : String) : Bool :=
  (method == "POST" &&
    (path == "/explore" || path == "/execute-tool" || path == "/search" ||
     path == "/find-by-name" || path == "/read-file" ||
     path == "/find-relationships" || path == "/find-usages" ||
     path == "/class-info" || path == "/augment" || path == "/config")) ||
  (method == "GET" &&
    (path == "/tools" || path == "/status" || path == "/config"))

/-- The bearer credential a request carries: `none` when the header is
absent or not a well-formed `Bearer <token>` value. -/
def bearerCredential (authHeader : Option String) : Option String :=
  (httpBearer authHeader).toOption

/-! ## Startup port discovery (`lifespan`) -/

/-- `range(8765, 8776)`: the probed ports in increasing order. -/
def probePorts : List Nat := List.range' 8765 11

/-- Whether the probe of one port finds the agent proxy: HTTP 200, a
JSON body, and a `"service"` field equal to `"agent-proxy"`.  Any raised
exception (connect failure, JSON decode failure, `.get` on a non-dict)
is swallowed by the per-port `except` and counts as no match. -/
def portMatches (probe : Nat → BackendOutcome) (port : Nat) : Bool :=
  match probe port with
  | .raiseExc _ => false
  | .response r =>
      if r.status = 200 then
        match r.body with
        | .ok j =>
            match j.lookup "service" with
            | some (.str s) => s = "agent-proxy"
            | _ => false
        | .error _ => false
      else false

/-- The `lifespan` startup loop: scan `probePorts` in order and set
`PROXY_BASE_URL` to the first matching port, keeping the configured
default (and merely logging a warning) when none matches. -/
def discoverProxyBaseUrl (probe : Nat → BackendOutcome)
    (defaultUrl : String) : String :=
  match probePorts.find? (portMatches probe) with
  | some port => "http://localhost:" ++ toString port
  | none => defaultUrl

/-! ## Helper lemmas -/

theorem respondModel_snd {α : Type} (ser : α → Json)
    (p : Except HTTPExc α × List OutboundRequest) :
    (respondModel ser p).2 = p.2 := by
  rcases p with ⟨res, tr⟩
  cases res <;> rfl

theorem toOutcome_snd (p : Except HTTPExc Json × List OutboundRequest) :
    (toOutcome p).2 = p.2 := by
  rcases p with ⟨res, tr⟩
  cases res <;> rfl

theorem proxy_request_get_trace (backend : OutboundRequest → BackendOutcome)
    (endpoint : String) (jd : Option Json) :
    (proxy_request backend endpoint "GET" jd).2 = [⟨endpoint, "GET", none⟩] := by
  unfold proxy_request
  simp only [String.reduceEq, or_false, if_true, reduceIte, true_or]
  cases backend ⟨endpoint, "GET", none⟩ with
  | raiseExc msg => rfl
  | response r =>
      rcases r with ⟨st, body, txt⟩
      cases hr : is2xx st
      · simp [hr]
      · cases body <;> simp [hr]

theorem proxy_request_post_trace (backend : OutboundRequest → BackendOutcome)
    (endpoint : String) (jd : Option Json) :
    (proxy_request backend endpoint "POST" jd).2 = [⟨endpoint, "POST", jd⟩] := by
  unfold proxy_request
  simp only [String.reduceEq, or_true, if_true, reduceIte]
  cases backend ⟨endpoint, "POST", jd⟩ with
  | raiseExc msg => rfl
  | response r =>
      rcases r with ⟨st, body, txt⟩
      cases hr : is2xx st
      · simp [hr]
      · cases body <;> simp [hr]

theorem proxy_request_get_raise (backend : OutboundRequest → BackendOutcome)
    (endpoint : String) (jd : Option Json) (msg : String)
    (hb : backend ⟨endpoint, "GET", none⟩ = .raiseExc msg) :
    proxy_request backend endpoint "GET" jd =
      (.error ⟨500, "Proxy request failed: " ++ msg⟩, [⟨endpoint, "GET", none⟩]) := by
  unfold proxy_request
  simp [hb]

theorem proxy_request_get_2xx (backend : OutboundRequest → BackendOutcome)
    (endpoint : String) (jd : Option Json) (st : Nat) (j : Json) (txt : String)
    (hb : backend ⟨endpoint, "GET", none⟩ = .response ⟨st, .ok j, txt⟩)
    (h2 : is2xx st = true) :
    proxy_request backend endpoint "GET" jd = (.ok j, [⟨endpoint, "GET", none⟩]) := by
  unfold proxy_request
  simp [hb, h2]

theorem proxy_request_post_2xx (backend : OutboundRequest → BackendOutcome)
    (endpoint : String) (jd : Option Json) (st : Nat) (j : Json) (txt : String)
    (hb : backend ⟨endpoint, "POST", jd⟩ = .response ⟨st, .ok j, txt⟩)
    (h2 : is2xx st = true) :
    proxy_request backend endpoint "POST" jd = (.ok j, [⟨endpoint, "POST", jd⟩]) := by
  unfold proxy_request
  simp [hb, h2]

theorem proxy_request_post_non2xx (backend : OutboundRequest → BackendOutcome)
    (endpoint : String) (jd : Option Json) (st : Nat)
    (body : Except String Json) (txt : String)
    (hb : backend ⟨endpoint, "POST", jd⟩ = .response ⟨st, body, txt⟩)
    (h2 : is2xx st = false) :
    proxy_request backend endpoint "POST" jd =
      (.error ⟨st, txt⟩, [⟨endpoint, "POST", jd⟩]) := by
  unfold proxy_request
  simp [hb, h2]

theorem proxy_request_post_raise (backend : OutboundRequest → BackendOutcome)
    (endpoint : String) (jd : Option Json) (msg : String)
    (hb : backend ⟨endpoint, "POST", jd⟩ = .raiseExc msg) :
    proxy_request backend endpoint "POST" jd =
      (.error ⟨500, "Proxy request failed: " ++ msg⟩, [⟨endpoint, "POST", jd⟩]) := by
  unfold proxy_request
  simp [hb]

theorem health_check_trace (backend : OutboundRequest → BackendOutcome) :
    (health_check backend).2 = [⟨"/health", "GET", none⟩] := by
  have h := proxy_request_get_trace backend "/health" none
  unfold health_check
  rcases hpr : proxy_request backend "/health" "GET" none with ⟨res, tr⟩
  rw [hpr] at h
  cases res <;> exact h

theorem httpBearer_error_403 (h : Option String) (e : HTTPExc)
    (he : httpBearer h = .error e) : e.status = 403 := by
  cases h with
  | none =>
      simp only [httpBearer, Except.error.injEq] at he
      subst he
      rfl
  | some a =>
      simp only [httpBearer] at he
      split_ifs at he <;>
        first
          | (simp only [Except.error.injEq] at he; subst he; rfl)
          | exact absurd he (by simp)

theorem verify_api_key_error_of_bad_cred (apiKey : String) (h : Option String)
    (hkey : apiKey ≠ "") (hcred : bearerCredential h ≠ some apiKey) :
    ∃ e, verify_api_key apiKey h = .error e ∧
      (e.status = 401 ∨ e.status = 403) := by
  cases hb : httpBearer h with
  | error e =>
      exact ⟨e, by simp [verify_api_key, hb],
             Or.inr (httpBearer_error_403 h e hb)⟩
  | ok cred =>
      have hc : cred ≠ apiKey := by
        intro hEq
        exact hcred (by simp [bearerCredential, hb, hEq, Except.toOption])
      exact ⟨⟨401, "Invalid API key"⟩,
             by simp [verify_api_key, hb, hkey, hc], Or.inl rfl⟩

theorem find_first_of_pairwise (p : Nat → Bool) :
    ∀ (l : List Nat), l.Pairwise (· < ·) → ∀ x, x ∈ l → p x = true →
      (∀ y, y ∈ l → y < x → p y = false) → l.find? p = some x := by
  intro l
  induction l with
  | nil =>
      intro _ x hx
      cases hx
  | cons a t ih =>
      intro hl x hx hpx hmin
      rcases List.mem_cons.mp hx with rfl | hxt
      · exact List.find?_cons_of_pos t hpx
      · have hax : a < x := (List.pairwise_cons.mp hl).1 x hxt
        have hpa : p a = false := hmin a (List.mem_cons_self a t) hax
        rw [List.find?_cons_of_neg t (by simp [hpa])]
        exact ih (List.pairwise_cons.mp hl).2 x hxt hpx
          (fun y hy hlt => hmin y (List.mem_cons_of_mem a hy) hlt)

theorem probePorts_pairwise : probePorts.Pairwise (· < ·) := by decide

/-! ## Demonstration backends and probes (concrete inputs for witnesses) -/

/-- A backend that is down: every outbound call raises a transport
exception. -/
def downBackend : OutboundRequest → BackendOutcome :=
  fun _ => .raiseExc "All connection attempts failed"

/-- A backend whose health endpoint answers 200 with a service payload. -/
def upBackend : OutboundRequest → BackendOutcome :=
  fun _ => .response ⟨200, .ok (.obj [("service", .str "agent-proxy"),
    ("status", .str "ready")]), ""⟩

/-- A probe where every port is unreachable. -/
def deadProbe : Nat → BackendOutcome := fun _ => .raiseExc "connection refused"

/-- A probe where only port 8767 hosts the agent proxy. -/
def demoProbe : Nat → BackendOutcome := fun port =>
  if port = 8767 then
    .response ⟨200, .ok (.obj [("service", .str "agent-proxy"),
      ("project", .str "demo")]), ""⟩
  else .raiseExc "connection refused"

/-! ## Claims -/

/-- C5: `GET /health` returns a successful response reporting status
`healthy` with `proxy_connected=false` when the backend probe raises
(degraded, not a hard failure), and status `healthy` with
`proxy_connected=true` plus the backend health payload when the probe
succeeds with a 2xx JSON response. -/
theorem health_route_degraded_or_connected (apiKey : String)
    (backend : OutboundRequest → BackendOutcome) (ah : Option String)
    (bd : Option Json) :
    (∀ msg, backend ⟨"/health", "GET", none⟩ = .raiseExc msg →
      handleRequest apiKey backend ⟨"/health", "GET", ah, bd⟩ =
        (.ok (.obj [("status", .str "healthy"),
                    ("proxy_connected", .bool false),
                    ("proxy_info", .null)]), [⟨"/health", "GET", none⟩]))
  ∧ (∀ st j txt,
      backend ⟨"/health", "GET", none⟩ = .response ⟨st, .ok j, txt⟩ →
      is2xx st = true →
      handleRequest apiKey backend ⟨"/health", "GET", ah, bd⟩ =
        (.ok (.obj [("status", .str "healthy"),
                    ("proxy_connected", .bool true),
                    ("proxy_info", j)]), [⟨"/health", "GET", none⟩])) := by
  constructor
  · intro msg hb
    simp [handleRequest, health_check,
      proxy_request_get_raise backend "/health" none msg hb]
  · intro st j txt hb h2
    simp [handleRequest, health_check,
      proxy_request_get_2xx backend "/health" none st j txt hb h2]

/-- Witness for C5: the degraded and connected branches evaluated on
concrete backends. -/
theorem health_route_degraded_or_connected_witness :
    downBackend ⟨"/health", "GET", none⟩ =
        .raiseExc "All connection attempts failed" ∧
    handleRequest "" downBackend ⟨"/health", "GET", none, none⟩ =
      (.ok (.obj [("status", .str "healthy"),
                  ("proxy_connected", .bool false),
                  ("proxy_info", .null)]), [⟨"/health", "GET", none⟩]) ∧
    handleRequest "" upBackend ⟨"/health", "GET", none, none⟩ =
      (.ok (.obj [("status", .str "healthy"),
                  ("proxy_connected", .bool true),
                  ("proxy_info", .obj [("service", .str "agent-proxy"),
                                       ("status", .str "ready")])]),
       [⟨"/health", "GET", none⟩]) :=
  ⟨rfl,
   (health_route_degraded_or_connected "" downBackend none none).1
     "All connection attempts failed" rfl,
   (health_route_degraded_or_connected "" upBackend none none).2
     200 (.obj [("service", .str "agent-proxy"), ("status", .str "ready")])
     "" rfl rfl⟩

/-- C8: the `GET /health` route has no authentication dependency: even
with a bearer token configured, a request with no credentials at all is
served by the health handler and a health probe is forwarded to the
backend. -/
theorem health_route_skips_authentication (apiKey : String)
    (backend : OutboundRequest → BackendOutcome) (hkey : apiKey ≠ "") :
    handleRequest apiKey backend ⟨"/health", "GET", none, none⟩ =
      (.ok (health_check backend).1, [⟨"/health", "GET", none⟩]) := by
  simp [handleRequest, health_check_trace backend]

/-- Witness for C8: a configured key and a concrete backend. -/
theorem health_route_skips_authentication_witness :
    "secret-key" ≠ "" ∧
    handleRequest "secret-key" downBackend ⟨"/health", "GET", none, none⟩ =
      (.ok (health_check downBackend).1, [⟨"/health", "GET", none⟩]) :=
  ⟨by decide, health_route_skips_authentication "secret-key" downBackend
    (by decide)⟩

/-- C6: at startup the gateway probes ports 8765–8775 in increasing
order; the backend base URL becomes `http://localhost:<p>` for the first
port `p` answering HTTP 200 with a JSON body whose `service` field is
`"agent-proxy"`; if no port matches, the configured default URL is kept
and startup completes. -/
theorem lifespan_port_discovery (probe : Nat → BackendOutcome)
    (defaultUrl : String) :
    (∀ p, p ∈ probePorts → portMatches probe p = true →
      (∀ q, q ∈ probePorts → q < p → portMatches probe q = false) →
      discoverProxyBaseUrl probe defaultUrl = "http://localhost:" ++ toString p)
  ∧ ((∀ p, p ∈ probePorts → portMatches probe p = false) →
      discoverProxyBaseUrl probe defaultUrl = defaultUrl) := by
  constructor
  · intro p hp hm hmin
    unfold discoverProxyBaseUrl
    rw [find_first_of_pairwise (portMatches probe) probePorts
      probePorts_pairwise p hp hm hmin]
  · intro hall
    unfold discoverProxyBaseUrl
    rw [List.find?_eq_none.mpr (fun x hx => by simp [hall x hx])]

/-- Witness for C6: with only port 8767 matching, discovery returns
`http://localhost:8767`; with every probe failing, the default is kept. -/
theorem lifespan_port_discovery_witness :
    (8767 ∈ probePorts ∧ portMatches demoProbe 8767 = true ∧
      discoverProxyBaseUrl demoProbe "http://localhost:8765" =
        "http://localhost:" ++ toString 8767) ∧
    discoverProxyBaseUrl deadProbe
        "http://localhost:8765" = "http://localhost:8765" := by
  constructor
  · refine ⟨by decide, by decide, ?_⟩
    exact (lifespan_port_discovery demoProbe "http://localhost:8765").1
      8767 (by decide) (by decide) (by decide)
  · exact (lifespan_port_discovery deadProbe "http://localhost:8765").2
      (fun p _ => rfl)

/-- C2 (the code evaluated at the failing input): with no API key
configured, a `GET /tools` request carrying no Authorization header is
rejected with 403 `Not authenticated` by the `HTTPBearer()` dependency
(`auto_error=True`) before anything is forwarded — although
`verify_api_key` itself would accept any credentials when no key is set. -/
theorem no_key_missing_header_still_rejected :
    verify_api_key "" none = .error ⟨403, "Not authenticated"⟩ ∧
    handleRequest "" downBackend ⟨"/tools", "GET", none, none⟩ =
      (.err 403 "Not authenticated", []) ∧
    verify_api_key "" (some "Bearer anything") = .ok "anything" := by
  refine ⟨rfl, ?_, rfl⟩
  rfl

/-- C3 counterexample: with a bearer token configured, a `GET /health`
request carrying no credentials is *not* rejected: the handler runs and a
probe is forwarded to the backend. -/
theorem configured_key_health_not_rejected :
    handleRequest "secret-key" downBackend ⟨"/health", "GET", none, none⟩ =
      (.ok (.obj [("status", .str "healthy"),
                  ("proxy_connected", .bool false),
                  ("proxy_info", .null)]),
       [⟨"/health", "GET", none⟩]) := by
  rfl

/-- C3 (amended): with a bearer token configured, every request to a
*protected* route — every modelled route except `GET /health` — whose
bearer token is missing, malformed, or different from the configured key
is rejected with a 401/403 before any request is forwarded to the
backend. -/
theorem protected_routes_reject_before_forwarding (apiKey : String)
    (backend : OutboundRequest → BackendOutcome) (req : InboundRequest)
    (hkey : apiKey ≠ "")
    (hroute : protectedRoute req.method req.path = true)
    (hcred : bearerCredential req.authHeader ≠ some apiKey) :
    ∃ st detail, (st = 401 ∨ st = 403) ∧
      handleRequest apiKey backend req = (.err st detail, []) := by
  obtain ⟨e, hv, hst⟩ :=
    verify_api_key_error_of_bad_cred apiKey req.authHeader hkey hcred
  obtain ⟨path, method, ah, bd⟩ := req
  simp only [protectedRoute, Bool.or_eq_true, Bool.and_eq_true,
    beq_iff_eq] at hroute
  refine ⟨e.status, e.detail, hst, ?_⟩
  rcases hroute with ⟨hm, hp⟩ | ⟨hm, hp⟩
  · subst hm
    rcases hp with ((((((((hp|hp)|hp)|hp)|hp)|hp)|hp)|hp)|hp)|hp <;>
      subst hp <;> simp [handleRequest, withAuth, hv]
  · subst hm
    rcases hp with (hp|hp)|hp <;> subst hp <;>
      simp [handleRequest, withAuth, hv]

/-- Witness for the amended C3: a wrong bearer token on `POST /explore`
with a configured key is rejected and nothing is forwarded. -/
theorem protected_routes_reject_before_forwarding_witness :
    "secret-key" ≠ "" ∧
    protectedRoute "POST" "/explore" = true ∧
    bearerCredential (some "Bearer wrong") ≠ some "secret-key" ∧
    ∃ st detail, (st = 401 ∨ st = 403) ∧
      handleRequest "secret-key" downBackend
        ⟨"/explore", "POST", some "Bearer wrong", none⟩ =
          (.err st detail, []) :=
  ⟨by decide, by decide, by decide,
   protected_routes_reject_before_forwarding "secret-key" downBackend
     ⟨"/explore", "POST", some "Bearer wrong", none⟩ (by decide) (by decide)
     (by decide)⟩

/-! ## More helper lemmas and concrete backends -/

theorem execute_tool_trace (backend : OutboundRequest → BackendOutcome)
    (r : ExecuteToolRequest) :
    (execute_tool backend r).2 = [⟨"/execute-tool", "POST", some r.dict⟩] := by
  have h := proxy_request_post_trace backend "/execute-tool" (some r.dict)
  unfold execute_tool
  rcases hpr : proxy_request backend "/execute-tool" "POST" (some r.dict)
    with ⟨res, tr⟩
  rw [hpr] at h
  rcases res with e | j
  · exact h
  · rcases hc : parseExecuteToolResponse j with msg | resp <;> simp [hc] <;>
      exact h

theorem parseExecuteToolRequest_pair (tool : String)
    (fields : List (String × Json)) :
    parseExecuteToolRequest
        (.obj [("tool", .str tool), ("parameters", .obj fields)]) =
      .ok ⟨tool, fields⟩ := rfl

theorem parseAugmentQueryRequest_pair (q : String) :
    parseAugmentQueryRequest (.obj [("query", .str q)]) = .ok ⟨q⟩ := rfl

/-- A backend whose every endpoint answers a 500 with a status-error
text. -/
def errorBackend : OutboundRequest → BackendOutcome := fun _ =>
  .response ⟨500, .error "Expecting value",
    "Server error 500 for url /execute-tool"⟩

/-- A backend answering 200 on `/explore` with a minimal success payload
(no `report`/`error` fields). -/
def exploreBackend : OutboundRequest → BackendOutcome := fun _ =>
  .response ⟨200, .ok (.obj [("success", .bool true), ("summary", .str "ok")]),
    ""⟩

/-- C1 counterexample: on an authenticated, well-formed
`POST /execute-tool` whose backend answers 500, the route does *not*
return a `success=false` payload: `proxy_request` raises an
`HTTPException`, the handler re-raises it, and the caller receives an
HTTP error response. -/
theorem execute_tool_backend_error_is_http_error :
    handleRequest "" errorBackend
        ⟨"/execute-tool", "POST", some "Bearer t",
         some (.obj [("tool", .str "read_file"),
                     ("parameters", .obj [("file_path", .str "Main.java")])])⟩ =
      (.err 500 "Server error 500 for url /execute-tool",
       [⟨"/execute-tool", "POST",
         some (.obj [("tool", .str "read_file"),
                     ("parameters",
                      .obj [("file_path", .str "Main.java")])])⟩]) ∧
    ∀ j, (handleRequest "" errorBackend
        ⟨"/execute-tool", "POST", some "Bearer t",
         some (.obj [("tool", .str "read_file"),
                     ("parameters",
                      .obj [("file_path", .str "Main.java")])])⟩).1 ≠
      Outcome.ok j := by
  constructor
  · rfl
  · intro j h
    have h2 : Outcome.err 500 "Server error 500 for url /execute-tool" =
        Outcome.ok j := h
    exact Outcome.noConfusion h2

/-- C1 (amended): for an authenticated, well-formed `POST /execute-tool`
or `POST /explore`, a backend non-2xx response or a raised forwarding
call is surfaced as a structured HTTP error response carrying the
underlying message — the backend status with the status-error text, or
500 with `Proxy request failed: <message>` — never an unhandled fault. -/
theorem backend_errors_surface_structured (apiKey : String)
    (backend : OutboundRequest → BackendOutcome) (h : Option String)
    (cred : String) (hauth : verify_api_key apiKey h = .ok cred) :
    (∀ b r, parseExecuteToolRequest b = .ok r →
      (∀ st body txt,
        backend ⟨"/execute-tool", "POST", some r.dict⟩ =
          .response ⟨st, body, txt⟩ →
        is2xx st = false →
        handleRequest apiKey backend ⟨"/execute-tool", "POST", h, some b⟩ =
          (.err st txt, [⟨"/execute-tool", "POST", some r.dict⟩]))
      ∧ (∀ msg,
        backend ⟨"/execute-tool", "POST", some r.dict⟩ = .raiseExc msg →
        handleRequest apiKey backend ⟨"/execute-tool", "POST", h, some b⟩ =
          (.err 500 ("Proxy request failed: " ++ msg),
           [⟨"/execute-tool", "POST", some r.dict⟩])))
  ∧ (∀ b r, parseExploreCodeRequest b = .ok r →
      (∀ st body txt,
        backend ⟨"/explore", "POST", some r.dict⟩ = .response ⟨st, body, txt⟩ →
        is2xx st = false →
        handleRequest apiKey backend ⟨"/explore", "POST", h, some b⟩ =
          (.err st txt, [⟨"/explore", "POST", some r.dict⟩]))
      ∧ (∀ msg, backend ⟨"/explore", "POST", some r.dict⟩ = .raiseExc msg →
        handleRequest apiKey backend ⟨"/explore", "POST", h, some b⟩ =
          (.err 500 ("Proxy request failed: " ++ msg),
           [⟨"/explore", "POST", some r.dict⟩]))) := by
  constructor
  · intro b r hparse
    constructor
    · intro st body txt hb h2
      simp [handleRequest, withAuth, hauth, withParsed, hparse, execute_tool,
        respondModel, proxy_request_post_non2xx backend "/execute-tool"
          (some r.dict) st body txt hb h2]
    · intro msg hb
      simp [handleRequest, withAuth, hauth, withParsed, hparse, execute_tool,
        respondModel, proxy_request_post_raise backend "/execute-tool"
          (some r.dict) msg hb]
  · intro b r hparse
    constructor
    · intro st body txt hb h2
      simp [handleRequest, withAuth, hauth, withParsed, hparse, explore_code,
        respondModel, proxy_request_post_non2xx backend "/explore"
          (some r.dict) st body txt hb h2]
    · intro msg hb
      simp [handleRequest, withAuth, hauth, withParsed, hparse, explore_code,
        respondModel, proxy_request_post_raise backend "/explore"
          (some r.dict) msg hb]

/-- Witness for the amended C1: the 500-answering backend on a concrete
authenticated `POST /execute-tool`. -/
theorem backend_errors_surface_structured_witness :
    verify_api_key "" (some "Bearer t") = .ok "t" ∧
    parseExecuteToolRequest (.obj [("tool", .str "read_file"),
        ("parameters", .obj [("file_path", .str "Main.java")])]) =
      .ok ⟨"read_file", [("file_path", .str "Main.java")]⟩ ∧
    is2xx 500 = false ∧
    handleRequest "" errorBackend ⟨"/execute-tool", "POST", some "Bearer t",
        some (.obj [("tool", .str "read_file"),
                    ("parameters", .obj [("file_path", .str "Main.java")])])⟩ =
      (.err 500 "Server error 500 for url /execute-tool",
       [⟨"/execute-tool", "POST",
         some (.obj [("tool", .str "read_file"),
                     ("parameters",
                      .obj [("file_path", .str "Main.java")])])⟩]) :=
  ⟨rfl, rfl, rfl,
   ((backend_errors_surface_structured "" errorBackend (some "Bearer t") "t"
       rfl).1
     (.obj [("tool", .str "read_file"),
            ("parameters", .obj [("file_path", .str "Main.java")])])
     ⟨"read_file", [("file_path", .str "Main.java")]⟩ rfl).1
     500 (.error "Expecting value")
     "Server error 500 for url /execute-tool" rfl rfl⟩

/-- C7 counterexample: a 2xx backend payload on `POST /explore` is *not*
returned verbatim — the route re-validates it against
`ExploreCodeResponse`, adding `report`/`error` fields as null. -/
theorem explore_response_not_verbatim :
    handleRequest "" exploreBackend ⟨"/explore", "POST", some "Bearer t",
        some (.obj [("query", .str "q")])⟩ =
      (.ok (.obj [("success", .bool true), ("summary", .str "ok"),
                  ("report", .null), ("error", .null)]),
       [⟨"/explore", "POST",
         some (.obj [("query", .str "q"), ("generate_report", .bool false),
                     ("config", .null)])⟩]) ∧
    Json.obj [("success", .bool true), ("summary", .str "ok"),
              ("report", .null), ("error", .null)] ≠
      Json.obj [("success", .bool true), ("summary", .str "ok")] := by
  constructor
  · rfl
  · intro h
    simp at h

/-- C7 (amended): `proxy_request` hands any 2xx JSON payload back
verbatim, and the pass-through routes `GET /tools`, `GET /status`,
`GET /config` and `POST /augment` return exactly the backend's response
body. -/
theorem passthrough_routes_verbatim (apiKey : String)
    (backend : OutboundRequest → BackendOutcome) (h : Option String)
    (cred : String) (hauth : verify_api_key apiKey h = .ok cred) :
    (∀ st j txt, backend ⟨"/tools", "GET", none⟩ = .response ⟨st, .ok j, txt⟩ →
      is2xx st = true →
      handleRequest apiKey backend ⟨"/tools", "GET", h, none⟩ =
        (.ok j, [⟨"/tools", "GET", none⟩]))
  ∧ (∀ st j txt, backend ⟨"/status", "GET", none⟩ = .response ⟨st, .ok j, txt⟩ →
      is2xx st = true →
      handleRequest apiKey backend ⟨"/status", "GET", h, none⟩ =
        (.ok j, [⟨"/status", "GET", none⟩]))
  ∧ (∀ st j txt, backend ⟨"/config", "GET", none⟩ = .response ⟨st, .ok j, txt⟩ →
      is2xx st = true →
      handleRequest apiKey backend ⟨"/config", "GET", h, none⟩ =
        (.ok j, [⟨"/config", "GET", none⟩]))
  ∧ (∀ q st j txt,
      backend ⟨"/augment", "POST", some (.obj [("query", .str q)])⟩ =
        .response ⟨st, .ok j, txt⟩ →
      is2xx st = true →
      handleRequest apiKey backend
          ⟨"/augment", "POST", h, some (.obj [("query", .str q)])⟩ =
        (.ok j, [⟨"/augment", "POST", some (.obj [("query", .str q)])⟩])) := by
  refine ⟨?_, ?_, ?_, ?_⟩
  · intro st j txt hb h2
    simp [handleRequest, withAuth, hauth, toOutcome,
      proxy_request_get_2xx backend "/tools" none st j txt hb h2]
  · intro st j txt hb h2
    simp [handleRequest, withAuth, hauth, toOutcome,
      proxy_request_get_2xx backend "/status" none st j txt hb h2]
  · intro st j txt hb h2
    simp [handleRequest, withAuth, hauth, toOutcome,
      proxy_request_get_2xx backend "/config" none st j txt hb h2]
  · intro q st j txt hb h2
    simp [handleRequest, withAuth, hauth, withParsed,
      parseAugmentQueryRequest_pair, toOutcome, AugmentQueryRequest.dict,
      proxy_request_post_2xx backend "/augment"
        (some (.obj [("query", .str q)])) st j txt hb h2]

/-- Witness for the amended C7: the `GET /tools` route with a concrete
200-answering backend. -/
theorem passthrough_routes_verbatim_witness :
    verify_api_key "" (some "Bearer t") = .ok "t" ∧
    upBackend ⟨"/tools", "GET", none⟩ =
      .response ⟨200, .ok (.obj [("service", .str "agent-proxy"),
        ("status", .str "ready")]), ""⟩ ∧
    is2xx 200 = true ∧
    handleRequest "" upBackend ⟨"/tools", "GET", some "Bearer t", none⟩ =
      (.ok (.obj [("service", .str "agent-proxy"), ("status", .str "ready")]),
       [⟨"/tools", "GET", none⟩]) :=
  ⟨rfl, rfl, rfl,
   (passthrough_routes_verbatim "" upBackend (some "Bearer t") "t" rfl).1
     200 (.obj [("service", .str "agent-proxy"), ("status", .str "ready")])
     "" rfl rfl⟩

/-- C4: each convenience route is equivalent to posting the generic
`/execute-tool` route with the corresponding tool name and the route's
request fields (its `.dict()`) as the parameter map. -/
theorem convenience_routes_refine_execute_tool (apiKey : String)
    (backend : OutboundRequest → BackendOutcome) (h : Option String)
    (cred : String) (hauth : verify_api_key apiKey h = .ok cred) :
    (∀ b r, parseSearchCodeRequest b = .ok r →
      handleRequest apiKey backend ⟨"/search", "POST", h, some b⟩ =
        handleRequest apiKey backend ⟨"/execute-tool", "POST", h,
          some (.obj [("tool", .str "search_code"),
                      ("parameters", .obj r.dictFields)])⟩)
  ∧ (∀ b r, parseFindByNameRequest b = .ok r →
      handleRequest apiKey backend ⟨"/find-by-name", "POST", h, some b⟩ =
        handleRequest apiKey backend ⟨"/execute-tool", "POST", h,
          some (.obj [("tool", .str "find_by_name"),
                      ("parameters", .obj r.dictFields)])⟩)
  ∧ (∀ b r, parseReadFileRequest b = .ok r →
      handleRequest apiKey backend ⟨"/read-file", "POST", h, some b⟩ =
        handleRequest apiKey backend ⟨"/execute-tool", "POST", h,
          some (.obj [("tool", .str "read_file"),
                      ("parameters", .obj r.dictFields)])⟩)
  ∧ (∀ b r, parseFindRelationshipsRequest b = .ok r →
      handleRequest apiKey backend ⟨"/find-relationships", "POST", h, some b⟩ =
        handleRequest apiKey backend ⟨"/execute-tool", "POST", h,
          some (.obj [("tool", .str "find_relationships"),
                      ("parameters", .obj r.dictFields)])⟩)
  ∧ (∀ b r, parseFindUsagesRequest b = .ok r →
      handleRequest apiKey backend ⟨"/find-usages", "POST", h, some b⟩ =
        handleRequest apiKey backend ⟨"/execute-tool", "POST", h,
          some (.obj [("tool", .str "find_usages"),
                      ("parameters", .obj r.dictFields)])⟩)
  ∧ (∀ b r, parseGetClassInfoRequest b = .ok r →
      handleRequest apiKey backend ⟨"/class-info", "POST", h, some b⟩ =
        handleRequest apiKey backend ⟨"/execute-tool", "POST", h,
          some (.obj [("tool", .str "get_class_info"),
                      ("parameters", .obj r.dictFields)])⟩) := by
  refine ⟨?_, ?_, ?_, ?_, ?_, ?_⟩ <;> intro b r hparse <;>
    simp [handleRequest, withAuth, hauth, withParsed, hparse,
      parseExecuteToolRequest_pair, search_code, find_by_name, read_file,
      find_relationships, find_usages, get_class_info]

/-- Witness for C4: the `/search` route on a concrete request equals the
generic `/execute-tool` invocation. -/
theorem convenience_routes_refine_execute_tool_witness :
    verify_api_key "" (some "Bearer t") = .ok "t" ∧
    parseSearchCodeRequest (.obj [("query", .str "main method")]) =
      .ok ⟨"main method", some 10⟩ ∧
    handleRequest "" downBackend ⟨"/search", "POST", some "Bearer t",
        some (.obj [("query", .str "main method")])⟩ =
      handleRequest "" downBackend ⟨"/execute-tool", "POST", some "Bearer t",
        some (.obj [("tool", .str "search_code"),
          ("parameters", .obj (SearchCodeRequest.dictFields
            ⟨"main method", some 10⟩))])⟩ :=
  ⟨rfl, rfl,
   (convenience_routes_refine_execute_tool "" downBackend (some "Bearer t")
     "t" rfl).1 (.obj [("query", .str "main method")])
     ⟨"main method", some 10⟩ rfl⟩

/-- C9: a `/search` body omitting `max_results` forwards
`max_results=10`, and a `/find-by-name` body omitting `type` forwards
`type="any"`: the declared defaults are materialised into the parameter
map sent to the generic execute-tool path. -/
theorem omitted_defaults_forwarded (apiKey : String)
    (backend : OutboundRequest → BackendOutcome) (h : Option String)
    (cred : String) (hauth : verify_api_key apiKey h = .ok cred) :
    (∀ b q, Json.isObj b = true → b.lookup "query" = some (.str q) →
      b.lookup "max_results" = none →
      (handleRequest apiKey backend ⟨"/search", "POST", h, some b⟩).2 =
        [⟨"/execute-tool", "POST",
          some (.obj [("tool", .str "search_code"),
            ("parameters", .obj [("query", .str q),
                                 ("max_results", .num 10)])])⟩])
  ∧ (∀ b n, Json.isObj b = true → b.lookup "name" = some (.str n) →
      b.lookup "type" = none →
      (handleRequest apiKey backend ⟨"/find-by-name", "POST", h, some b⟩).2 =
        [⟨"/execute-tool", "POST",
          some (.obj [("tool", .str "find_by_name"),
            ("parameters", .obj [("name", .str n),
                                 ("type", .str "any")])])⟩]) := by
  constructor
  · intro b q hobj hq hmr
    have hparse : parseSearchCodeRequest b = .ok ⟨q, some 10⟩ := by
      simp [parseSearchCodeRequest, hobj, reqStrField, hq, optIntFieldD, hmr]
        <;> rfl
    simp [handleRequest, withAuth, hauth, withParsed, hparse, respondModel_snd,
      search_code, execute_tool_trace, ExecuteToolRequest.dict,
      SearchCodeRequest.dictFields, jsonOfOptInt]
  · intro b n hobj hn ht
    have hparse : parseFindByNameRequest b = .ok ⟨n, some "any"⟩ := by
      simp [parseFindByNameRequest, hobj, reqStrField, hn, optStrFieldD, ht]
        <;> rfl
    simp [handleRequest, withAuth, hauth, withParsed, hparse, respondModel_snd,
      find_by_name, execute_tool_trace, ExecuteToolRequest.dict,
      FindByNameRequest.dictFields, jsonOfOptStr]

/-- Witness for C9: concrete bodies omitting the optional fields. -/
theorem omitted_defaults_forwarded_witness :
    verify_api_key "" (some "Bearer t") = .ok "t" ∧
    Json.isObj (.obj [("query", .str "m")]) = true ∧
    Json.lookup (.obj [("query", .str "m")]) "query" = some (.str "m") ∧
    Json.lookup (.obj [("query", .str "m")]) "max_results" = none ∧
    (handleRequest "" downBackend ⟨"/search", "POST", some "Bearer t",
        some (.obj [("query", .str "m")])⟩).2 =
      [⟨"/execute-tool", "POST",
        some (.obj [("tool", .str "search_code"),
          ("parameters", .obj [("query", .str "m"),
                               ("max_results", .num 10)])])⟩] :=
  ⟨rfl, rfl, rfl, rfl,
   (omitted_defaults_forwarded "" downBackend (some "Bearer t") "t" rfl).1
     (.obj [("query", .str "m")]) "m" rfl rfl rfl⟩

/-- C10: `POST /config` forwards `request.dict(exclude_none=True)`:
exactly the fields set to a non-`None` value appear in the forwarded
body, each with its set value, and unset fields are omitted. -/
theorem config_update_sends_exactly_set_fields (apiKey : String)
    (backend : OutboundRequest → BackendOutcome) (h : Option String)
    (cred : String) (hauth : verify_api_key apiKey h = .ok cred) (b : Json)
    (r : ConfigUpdateRequest)
    (hparse : parseConfigUpdateRequest b = .ok r) :
    (handleRequest apiKey backend ⟨"/config", "POST", h, some b⟩).2 =
      [⟨"/config", "POST", some (.obj r.dictExcludeNone)⟩] ∧
    ∀ k v, (k, v) ∈ r.dictExcludeNone ↔
      ((k = "max_tool_calls" ∧ some v = r.max_tool_calls.map Json.num) ∨
       (k = "max_rounds" ∧ some v = r.max_rounds.map Json.num) ∨
       (k = "include_tests" ∧ some v = r.include_tests.map Json.bool) ∨
       (k = "deep_exploration" ∧ some v = r.deep_exploration.map Json.bool) ∨
       (k = "timeout_seconds" ∧ some v = r.timeout_seconds.map Json.num)) := by
  constructor
  · simp [handleRequest, withAuth, hauth, withParsed, hparse, toOutcome_snd,
      update_config, proxy_request_post_trace]
  · intro k v
    rcases r with ⟨a, b2, c, d, e⟩
    cases a <;> cases b2 <;> cases c <;> cases d <;> cases e <;>
      simp [ConfigUpdateRequest.dictExcludeNone] <;> tauto

/-- Witness for C10: a body setting only `max_rounds`. -/
theorem config_update_sends_exactly_set_fields_witness :
    verify_api_key "" (some "Bearer t") = .ok "t" ∧
    parseConfigUpdateRequest (.obj [("max_rounds", .num 5)]) =
      .ok ⟨none, some 5, none, none, none⟩ ∧
    ((handleRequest "" downBackend ⟨"/config", "POST", some "Bearer t",
        some (.obj [("max_rounds", .num 5)])⟩).2 =
      [⟨"/config", "POST",
        some (.obj (ConfigUpdateRequest.dictExcludeNone
          ⟨none, some 5, none, none, none⟩))⟩] ∧
     ∀ k v, (k, v) ∈ ConfigUpdateRequest.dictExcludeNone
        ⟨none, some 5, none, none, none⟩ ↔
       ((k = "max_tool_calls" ∧ some v = Option.map Json.num none) ∨
        (k = "max_rounds" ∧ some v = Option.map Json.num (some 5)) ∨
        (k = "include_tests" ∧ some v = Option.map Json.bool none) ∨
        (k = "deep_exploration" ∧ some v = Option.map Json.bool none) ∨
        (k = "timeout_seconds" ∧ some v = Option.map Json.num none))) :=
  ⟨rfl, rfl,
   config_update_sends_exactly_set_fields "" downBackend (some "Bearer t")
     "t" rfl (.obj [("max_rounds", .num 5)])
     ⟨none, some 5, none, none, none⟩ rfl⟩
